import Mathlib

/-!
# Verification of the solar PV analytics pipeline

A shallow embedding of the data-quality and performance-derivation pipeline:
the weather validator (`validate_weather_data` in `app.py`), the metrics
computations (`total_energy_kwh`, `peak_power_kw`, performance ratio), the
weather fetchers and the PVGIS CSV loader (`loaders.py`).

DataFrames are modelled as an integer-timestamped index together with named
columns of cells; a cell is a numeric value, a null (`NaN`), or a raw string.
Timestamps are minutes; timezones are fixed UTC offsets in minutes.
-/

namespace SolarPV

/-- A cell of a pandas DataFrame column: a numeric value, a null (`NaN`),
or a non-numeric string value. -/
inductive Cell where
  | num (q : ℚ)
  | null
  | str (s : String)
deriving DecidableEq

/-- `pd.isnull` on one cell: only `NaN` counts as null (a string does not). -/
def Cell.isNull : Cell → Bool
  | Cell.null => true
  | _ => false

/-- A cell that is numeric or null (the dtype of a column that pandas would
treat as float; string cells make a column `object`-typed). -/
def numOrNull : Cell → Bool
  | Cell.str _ => false
  | _ => true

/-- A DataFrame: a timestamp index (minutes) and named columns of cells. -/
structure DataFrame where
  index : List Int
  cols : List (String × List Cell)
deriving DecidableEq

/-- `df.columns`. -/
def DataFrame.columns (df : DataFrame) : List String :=
  df.cols.map Prod.fst

/-- `df[name]`: the first column carrying `name` (empty if absent). -/
def DataFrame.getCol (df : DataFrame) (name : String) : List Cell :=
  match df.cols.find? (fun c => c.1 == name) with
  | some c => c.2
  | none => []

/-- The `WeatherSeries` invariant: strictly increasing timestamps. -/
def DataFrame.Wf (df : DataFrame) : Prop :=
  List.Pairwise (· < ·) df.index

instance (df : DataFrame) : Decidable df.Wf := by
  unfold DataFrame.Wf; infer_instance

/-- `required_columns` from `validate_weather_data`. -/
def required_columns : List String :=
  ["ghi", "dni", "dhi", "temp_air", "wind_speed"]

/-- `[col for col in required_columns if col not in df.columns]`. -/
def missing_cols (df : DataFrame) : List String :=
  required_columns.filter (fun col => !(df.columns.contains col))

/-- Count of null cells in a column (`isnull().sum()` for one column). -/
def countNulls (col : List Cell) : Nat :=
  (col.filter (fun c => c.isNull)).length

/-- `df[required_columns].isnull().values.any()`. -/
def hasNulls (df : DataFrame) : Bool :=
  required_columns.any (fun c => (df.getCol c).any (fun x => x.isNull))

/-- `df[required_columns].isnull().sum()`: per-required-column null counts. -/
def nan_counts (df : DataFrame) : List (String × Nat) :=
  required_columns.map (fun c => (c, countNulls (df.getCol c)))

/-- Value of a digit string read left to right; `none` if a non-digit occurs. -/
def digitsVal (cs : List Char) : Option Nat :=
  cs.foldl (fun acc c =>
    match acc with
    | none => none
    | some n => if c.isDigit then some (10 * n + (c.toNat - 48)) else none)
    (some 0)

/-- Parse an unsigned decimal literal (`"12"`, `"12.5"`, `"12."`, `".5"`). -/
def parseUnsigned (cs : List Char) : Option ℚ :=
  match cs.splitOn '.' with
  | [intPart] =>
    if intPart.isEmpty then none
    else (digitsVal intPart).map (fun n => (n : ℚ))
  | [intPart, fracPart] =>
    if intPart.isEmpty && fracPart.isEmpty then none
    else
      match digitsVal intPart, digitsVal fracPart with
      | some a, some b => some ((a : ℚ) + (b : ℚ) / (10 ^ fracPart.length))
      | _, _ => none
  | _ => none

/-- Numeric parse of a string, modelling `pd.to_numeric` on a single string
value: optional sign, decimal digits, optional fractional part. -/
def parseNum (s : String) : Option ℚ :=
  match s.toList with
  | '-' :: r => (parseUnsigned r).map (fun q => -q)
  | '+' :: r => parseUnsigned r
  | r => parseUnsigned r

/-- `pd.to_numeric(_, errors='coerce')` on one cell: numbers and nulls pass
through, strings parse to a number or become null. -/
def to_numeric_coerce (c : Cell) : Cell :=
  match c with
  | Cell.num q => Cell.num q
  | Cell.null => Cell.null
  | Cell.str s =>
    match parseNum s with
    | some q => Cell.num q
    | none => Cell.null

/-- The valid (numeric) points of a column, as (position, timestamp, value),
in position order; positions start at `i`. -/
def validPointsAux (times : List Int) : Nat → List Int → List Cell →
    List (Nat × Int × ℚ)
  | _, _, [] => []
  | _, [], _ :: _ => []
  | i, t :: ts, c :: cs =>
    match c with
    | Cell.num v => (i, t, v) :: validPointsAux times (i + 1) ts cs
    | _ => validPointsAux times (i + 1) ts cs

/-- The valid (numeric) points of a column against its time index. -/
def validPoints (times : List Int) (col : List Cell) : List (Nat × Int × ℚ) :=
  validPointsAux times 0 times col

/-- Nearest valid point strictly before position `i` (time and value). -/
def prevValid (times : List Int) (col : List Cell) (i : Nat) :
    Option (Int × ℚ) :=
  (((validPoints times col).filter (fun p => p.1 < i)).getLast?).map
    (fun p => p.2)

/-- Nearest valid point strictly after position `i` (time and value). -/
def nextValid (times : List Int) (col : List Cell) (i : Nat) :
    Option (Int × ℚ) :=
  (((validPoints times col).filter (fun p => i < p.1)).head?).map
    (fun p => p.2)

/-- One cell of `interpolate(method='time')` (pandas default
`limit_direction='forward'`): a null between valid neighbours gets the
time-weighted linear value, a null after the last valid point gets the last
valid value, a null before the first valid point stays null; non-null cells
are unchanged. -/
def interpolateCell (times : List Int) (col : List Cell) (i : Nat)
    (c : Cell) : Cell :=
  match c with
  | Cell.null =>
    match prevValid times col i, nextValid times col i with
    | some (tj, vj), some (tk, vk) =>
      let ti : Int := times.getD i 0
      Cell.num (vj + (vk - vj) * (((ti : ℚ) - (tj : ℚ)) / ((tk : ℚ) - (tj : ℚ))))
    | some (_, vj), none => Cell.num vj
    | none, _ => Cell.null
  | c => c

/-- `interpolateCell` applied at every position from `i` on. -/
def interpolateTimeAux (times : List Int) (col : List Cell) :
    Nat → List Cell → List Cell
  | _, [] => []
  | i, c :: rest =>
    interpolateCell times col i c :: interpolateTimeAux times col (i + 1) rest

/-- `Series.interpolate(method='time')` over a whole column. -/
def interpolateTime (times : List Int) (col : List Cell) : List Cell :=
  interpolateTimeAux times col 0 col

/-- `fillna(0)` over a column. -/
def fillna0 (col : List Cell) : List Cell :=
  col.map (fun c => if c.isNull then Cell.num 0 else c)

/-- `df[required_columns] = f(df[required_columns])`: rewrite every required
column through `f` (which also sees the time index), leave the rest. -/
def DataFrame.mapRequired (df : DataFrame)
    (f : List Int → List Cell → List Cell) : DataFrame :=
  { df with
    cols := df.cols.map (fun c =>
      if required_columns.contains c.1 then (c.1, f df.index c.2) else c) }

/-- A message from the validator: the critical schema message carrying the
missing column names, or the null-repair warning carrying the per-column
null counts it reports. -/
inductive Warning where
  | critical (cols : List String)
  | nullsRepaired (counts : List (String × Nat))
deriving DecidableEq

/-- Outcome of `validate_weather_data`: the argument DataFrame as it stands
after the call (the function assigns into `df` in place), the returned
series, and the warnings. -/
structure ValidateResult where
  dfAfter : DataFrame
  result : Option DataFrame
  warnings : List Warning
deriving DecidableEq

/-- `validate_weather_data` from `app.py`: fail on missing required columns;
otherwise, when nulls are present, record their counts, interpolate by time
and fill the remainder with zero; finally coerce the required columns to
numeric, and return the (mutated) DataFrame with the warnings. -/
def validate_weather_data (df : DataFrame) : ValidateResult :=
  let missing := missing_cols df
  if missing = [] then
    let df1 :=
      if hasNulls df then
        (df.mapRequired interpolateTime).mapRequired (fun _ col => fillna0 col)
      else df
    let warnings : List Warning :=
      if hasNulls df then
        [Warning.nullsRepaired ((nan_counts df).filter (fun p => 0 < p.2))]
      else []
    let df2 := df1.mapRequired (fun _ col => col.map to_numeric_coerce)
    { dfAfter := df2, result := some df2, warnings := warnings }
  else
    { dfAfter := df, result := none, warnings := [Warning.critical missing] }

/-! ## Metrics (`app.py` lines 136-150, 164-168) -/

/-- `results.ac.sum() / 1000` (app.py line 136); the AC series is a list of
(timestamp, watts) rows. -/
def total_energy_kwh (ac : List (Int × ℚ)) : ℚ :=
  (ac.map Prod.snd).sum / 1000

/-- `Series.max()` of a series of values (pandas max of a nonempty series). -/
def seriesMax : List ℚ → ℚ
  | [] => 0
  | x :: xs => xs.foldl max x

/-- `results.ac.max() / 1000` (app.py line 137). -/
def peak_power_kw (ac : List (Int × ℚ)) : ℚ :=
  seriesMax (ac.map Prod.snd) / 1000

/-- `df.to_csv(index=True)` on `results.ac.to_frame(...)` (app.py line 168):
the exported rows, each keyed by its timestamp with its AC power value. -/
def convert_df_to_csv (ac : List (Int × ℚ)) : List (Int × ℚ) :=
  ac

/-- The performance-ratio display (app.py lines 144-150): "N/A" when the
result carries no plane-of-array irradiance column; otherwise
`(total / (poa_total * nominal / 1000)) * 100` when `poa_total > 0`, else 0. -/
inductive PRDisplay where
  | value (q : ℚ)
  | notAvailable
deriving DecidableEq

def performance_ratio (total_energy : ℚ) (poa_global : Option (List ℚ))
    (nominal_power_dc : ℚ) : PRDisplay :=
  match poa_global with
  | none => PRDisplay.notAvailable
  | some poa =>
    if 0 < poa.sum / 1000 then
      PRDisplay.value ((total_energy / (poa.sum / 1000 * nominal_power_dc / 1000)) * 100)
    else
      PRDisplay.value 0

/-! ## Helper lemmas -/

theorem foldl_max_const (a : ℚ) (l : List ℚ) (h : ∀ x ∈ l, x = a) :
    l.foldl max a = a := by
  induction l with
  | nil => rfl
  | cons x xs ih =>
    have hx : x = a := h x (by simp)
    have : ∀ y ∈ xs, y = a := fun y hy => h y (by simp [hy])
    simpa [hx] using ih this

theorem foldl_max_mem (l : List ℚ) (a : ℚ) :
    l.foldl max a = a ∨ l.foldl max a ∈ l := by
  induction l generalizing a with
  | nil => exact Or.inl rfl
  | cons x xs ih =>
    rcases ih (max a x) with h | h
    · rcases max_choice a x with hm | hm
      · exact Or.inl (by rw [List.foldl_cons, h, hm])
      · exact Or.inr (by rw [List.foldl_cons, h, hm]; exact List.mem_cons_self x xs)
    · exact Or.inr (List.mem_cons_of_mem x h)

theorem le_foldl_max (l : List ℚ) (a : ℚ) :
    a ≤ l.foldl max a ∧ ∀ x ∈ l, x ≤ l.foldl max a := by
  induction l generalizing a with
  | nil => exact ⟨le_refl a, by simp⟩
  | cons y ys ih =>
    have h1 := (ih (max a y)).1
    have h2 := (ih (max a y)).2
    refine ⟨le_trans (le_max_left a y) h1, ?_⟩
    intro x hx
    rcases List.mem_cons.mp hx with rfl | hx
    · exact le_trans (le_max_right a x) h1
    · exact h2 x hx

theorem seriesMax_mem (l : List ℚ) (h : l ≠ []) : seriesMax l ∈ l := by
  match l with
  | [] => exact absurd rfl h
  | x :: xs =>
    rcases foldl_max_mem xs x with h' | h'
    · rw [seriesMax, h']; exact List.mem_cons_self x xs
    · exact List.mem_cons_of_mem x h'

theorem le_seriesMax (l : List ℚ) (x : ℚ) (hx : x ∈ l) : x ≤ seriesMax l := by
  match l with
  | [] => cases hx
  | y :: ys =>
    rcases List.mem_cons.mp hx with rfl | hx
    · exact (le_foldl_max ys x).1
    · exact (le_foldl_max ys y).2 x hx

theorem seriesMax_perm (l l' : List ℚ) (hp : l.Perm l') (h : l ≠ []) :
    seriesMax l = seriesMax l' := by
  have h' : l' ≠ [] := fun he => h (List.Perm.eq_nil (he ▸ hp))
  have m1 : seriesMax l ∈ l' := hp.mem_iff.mp (seriesMax_mem l h)
  have m2 : seriesMax l' ∈ l := hp.mem_iff.mpr (seriesMax_mem l' h')
  exact le_antisymm (le_seriesMax l' _ m1) (le_seriesMax l _ m2)

/-! ## Claims C1, C4, C5, C9 -/

/-- C1: for every weather DataFrame missing at least one of the required
columns `ghi, dni, dhi, temp_air, wind_speed`, `validate_weather_data`
returns no series together with exactly one critical message naming exactly
the missing columns, and leaves the data untouched (no null repair). -/
theorem C1_schema_check_fatal (df : DataFrame) (h : missing_cols df ≠ []) :
    (validate_weather_data df).result = none ∧
    (validate_weather_data df).warnings = [Warning.critical (missing_cols df)] ∧
    (validate_weather_data df).dfAfter = df := by
  unfold validate_weather_data
  simp [h]

/-- An empty DataFrame: all five required columns are missing. -/
def emptyDF : DataFrame := ⟨[], []⟩

/-- Witness for C1 at the empty DataFrame. -/
theorem C1_schema_check_fatal_witness :
    missing_cols emptyDF ≠ [] ∧
    (validate_weather_data emptyDF).result = none ∧
    (validate_weather_data emptyDF).warnings = [Warning.critical (missing_cols emptyDF)] ∧
    (validate_weather_data emptyDF).dfAfter = emptyDF :=
  ⟨by decide, C1_schema_check_fatal emptyDF (by decide)⟩

/-- C4: the reported total energy is the sum of the AC power samples divided
by 1000 and the reported peak power is the maximum AC sample divided by
1000; for an all-zero nonempty AC series both reports are 0. -/
theorem C4_summary_metrics (ac : List (Int × ℚ))
    (hz : ∀ p ∈ ac, p.2 = 0) (hne : ac ≠ []) :
    total_energy_kwh ac = (ac.map Prod.snd).sum / 1000 ∧
    peak_power_kw ac = seriesMax (ac.map Prod.snd) / 1000 ∧
    total_energy_kwh ac = 0 ∧ peak_power_kw ac = 0 := by
  refine ⟨rfl, rfl, ?_, ?_⟩
  · have : (ac.map Prod.snd).sum = 0 := by
      apply List.sum_eq_zero
      intro x hx
      rcases List.mem_map.mp hx with ⟨p, hp, rfl⟩
      exact hz p hp
    simp [total_energy_kwh, this]
  · match hac : ac with
    | [] => exact absurd rfl hne
    | p :: ps =>
      have hp0 : p.2 = 0 := hz p (by simp)
      have : ∀ y ∈ ps.map Prod.snd, y = (0 : ℚ) := by
        intro y hy
        rcases List.mem_map.mp hy with ⟨q, hq, rfl⟩
        exact hz q (by simp [hq])
      simp [peak_power_kw, seriesMax, hp0, foldl_max_const 0 _ this]

/-- Witness for C4 at a two-sample all-zero AC series. -/
theorem C4_summary_metrics_witness :
    total_energy_kwh [((0 : Int), (0 : ℚ)), (60, 0)] = 0 ∧
    peak_power_kw [((0 : Int), (0 : ℚ)), (60, 0)] = 0 :=
  ⟨(C4_summary_metrics [((0 : Int), (0 : ℚ)), (60, 0)] (by simp) (by simp)).2.2.1,
   (C4_summary_metrics [((0 : Int), (0 : ℚ)), (60, 0)] (by simp) (by simp)).2.2.2⟩

/-- C5: the performance ratio is "not available" when plane-of-array
irradiance is absent from the result; when present, the dividing branch is
taken exactly when the irradiance sum is strictly positive, and a
non-positive sum reports 0 instead — so no division by a zero irradiance
sum occurs. -/
theorem C5_pr_no_div_by_zero (te np : ℚ) (poa : Option (List ℚ)) :
    performance_ratio te none np = PRDisplay.notAvailable ∧
    (∀ l, poa = some l →
      (0 < l.sum / 1000 ∧
        performance_ratio te poa np =
          PRDisplay.value ((te / (l.sum / 1000 * np / 1000)) * 100)) ∨
      (l.sum / 1000 ≤ 0 ∧ performance_ratio te poa np = PRDisplay.value 0)) := by
  refine ⟨rfl, ?_⟩
  rintro l rfl
  by_cases h : 0 < l.sum / 1000
  · exact Or.inl ⟨h, by simp only [performance_ratio, if_pos h]⟩
  · exact Or.inr ⟨le_of_not_lt h, by simp only [performance_ratio, if_neg h]⟩

/-- Witness for C5 at a positive irradiance sum. -/
theorem C5_pr_no_div_by_zero_witness :
    performance_ratio 3 (some [2000]) 500 =
      PRDisplay.value ((3 / ((2000 : ℚ) / 1000 * 500 / 1000)) * 100) := by
  rcases (C5_pr_no_div_by_zero 3 500 (some [2000])).2 [2000] rfl with ⟨_, h⟩ | ⟨h, _⟩
  · simpa using h
  · norm_num at h

/-- C9: total energy and peak power are invariant under permutation of the
AC series rows, and the CSV export is keyed by exactly the timestamps of its
source series. -/
theorem C9_order_independence (l l' : List (Int × ℚ))
    (hp : l.Perm l') (hne : l ≠ []) :
    total_energy_kwh l = total_energy_kwh l' ∧
    peak_power_kw l = peak_power_kw l' ∧
    (convert_df_to_csv l).map Prod.fst = l.map Prod.fst := by
  refine ⟨?_, ?_, rfl⟩
  · unfold total_energy_kwh
    rw [(hp.map Prod.snd).sum_eq]
  · unfold peak_power_kw
    rw [seriesMax_perm _ _ (hp.map Prod.snd) (by simpa using hne)]

/-- Witness for C9 at a concrete two-row permutation. -/
theorem C9_order_independence_witness :
    total_energy_kwh [((0 : Int), (5 : ℚ)), (60, 7)] =
      total_energy_kwh [((60 : Int), (7 : ℚ)), (0, 5)] ∧
    peak_power_kw [((0 : Int), (5 : ℚ)), (60, 7)] =
      peak_power_kw [((60 : Int), (7 : ℚ)), (0, 5)] := by
  have h := C9_order_independence [((0 : Int), (5 : ℚ)), (60, 7)]
    [((60 : Int), (7 : ℚ)), (0, 5)] (List.Perm.swap _ _ []) (by simp)
  exact ⟨h.1, h.2.1⟩

/-! ## Weather fetchers (`loaders.py`) -/

/-- A Python exception escaping a fetch/load call. -/
inductive PyExc where
  | requestException
  | keyError (k : String)
  | valueError
deriving DecidableEq

/-- The `hourly` object of an Open-Meteo response: named columns of cells,
one of which should be `"time"`. -/
structure Hourly where
  entries : List (String × List Cell)
deriving DecidableEq

/-- An HTTP interaction as the fetchers see it: a transport failure
(`requests.get` raises `RequestException`) or a response with a status code
and a JSON body that may or may not carry the `"hourly"` key (`none` models
a body without it). -/
inductive ApiResponse where
  | transportError
  | ok (status : Nat) (hourly : Option Hourly)
deriving DecidableEq

/-- `response.raise_for_status()` raises `HTTPError` (a `RequestException`)
exactly for 4xx/5xx status codes. -/
def raisesForStatus (status : Nat) : Prop :=
  400 ≤ status ∧ status < 600

instance (s : Nat) : Decidable (raisesForStatus s) := by
  unfold raisesForStatus; infer_instance

/-- `pd.to_datetime` on the `"time"` column: the parsed instants. -/
def cellsToTimes (l : List Cell) : List Int :=
  l.map (fun c => match c with | Cell.num q => q.floor | _ => 0)

/-- `df.rename(columns=mapping)` on one column name. -/
def renameCol (m : List (String × String)) (name : String) : String :=
  match m.find? (fun p => p.1 == name) with
  | some p => p.2
  | none => name

/-- `df['time'] = pd.to_datetime(df['time']); df.set_index('time')`:
make `"time"` the index and keep the other columns; looking up `"time"`
raises `KeyError` when the key is absent. -/
def buildTimeIndexedDF (h : Hourly) : Except PyExc DataFrame :=
  match h.entries.find? (fun p => p.1 == "time") with
  | none => Except.error (PyExc.keyError "time")
  | some timeCol =>
    Except.ok { index := cellsToTimes timeCol.2,
                cols := h.entries.filter (fun p => !(p.1 == "time")) }

/-- The column renaming of `fetch_live_weather_forecast`. -/
def live_rename : List (String × String) :=
  [("temperature_2m", "temp_air"), ("wind_speed_10m", "wind_speed"),
   ("shortwave_radiation", "ghi"), ("direct_normal_irradiance", "dni"),
   ("diffuse_radiation", "dhi")]

/-- `fetch_open_meteo_forecast` (loaders.py lines 81-114): catches only
`requests.RequestException`, so a body without the `"hourly"` key (or an
hourly table without `"time"`) raises `KeyError` out of the function. -/
def fetch_open_meteo_forecast (resp : ApiResponse) :
    Except PyExc (Option DataFrame) :=
  match resp with
  | ApiResponse.transportError => Except.ok none
  | ApiResponse.ok status body =>
    if raisesForStatus status then Except.ok none
    else
      match body with
      | none => Except.error (PyExc.keyError "hourly")
      | some h => (buildTimeIndexedDF h).map (fun df => some df)

/-- `fetch_live_weather_forecast` (loaders.py lines 116-172): catches both
`requests.RequestException` and `KeyError`, and renames the data columns to
the canonical schema. -/
def fetch_live_weather_forecast (resp : ApiResponse) :
    Except PyExc (Option DataFrame) :=
  match resp with
  | ApiResponse.transportError => Except.ok none
  | ApiResponse.ok status body =>
    if raisesForStatus status then Except.ok none
    else
      match body with
      | none => Except.ok none
      | some h =>
        match buildTimeIndexedDF h with
        | Except.error _ => Except.ok none
        | Except.ok df =>
          Except.ok (some { df with
            cols := df.cols.map (fun p => (renameCol live_rename p.1, p.2)) })

/-- `fetch_live_weather_forecast` never lets an exception escape. -/
theorem fetch_live_no_uncaught (resp : ApiResponse) (e : PyExc) :
    fetch_live_weather_forecast resp ≠ Except.error e := by
  match resp with
  | ApiResponse.transportError => simp [fetch_live_weather_forecast]
  | ApiResponse.ok status body =>
    unfold fetch_live_weather_forecast
    by_cases hs : raisesForStatus status
    · simp [hs]
    · match body with
      | none => simp [hs]
      | some h =>
        match hb : buildTimeIndexedDF h with
        | Except.error e' => simp [hs, hb]
        | Except.ok df => simp [hs, hb]

/-! ## Timezone handling of the loaders -/

/-- A fixed-offset timezone: minutes east of UTC. -/
structure TZ where
  offset : Int
deriving DecidableEq

def utcTZ : TZ := ⟨0⟩

/-- `America/Sao_Paulo` (UTC-3). -/
def americaSaoPaulo : TZ := ⟨-180⟩

/-- A timezone-aware DatetimeIndex: the UTC instants plus a timezone label;
the displayed wall clock of an entry is `instant + tz.offset`. -/
structure AwareIndex where
  instants : List Int
  tz : TZ
deriving DecidableEq

/-- `pd.to_datetime(raw, format=..., utc=True)`: raw wall-clock stamps are
interpreted as UTC, so they are the instants themselves. -/
def to_datetime_utc (raw : List Int) : AwareIndex :=
  ⟨raw, utcTZ⟩

/-- `tz_convert(tz)`: relabel the timezone, keeping the instants. -/
def tz_convert (idx : AwareIndex) (tz : TZ) : AwareIndex :=
  ⟨idx.instants, tz⟩

/-- `tz_localize(None)`: drop the timezone, keeping the local wall clock. -/
def tz_localize_none (idx : AwareIndex) : List Int :=
  idx.instants.map (fun t => t + idx.tz.offset)

/-- `tz_localize(tz)` on a naive index: stamp the wall-clock values with
`tz`, so each instant becomes `wall - offset`. -/
def tz_localize (naive : List Int) (tz : TZ) : AwareIndex :=
  ⟨naive.map (fun t => t - tz.offset), tz⟩

/-- Index pipeline of `load_weather_data` (loaders.py lines 21-22):
`pd.to_datetime(..., utc=True)` then `tz_convert(tz)`. -/
def load_weather_data_index (raw : List Int) (tz : TZ) : AwareIndex :=
  tz_convert (to_datetime_utc raw) tz

/-- Index pipeline of `load_pvgis_tmy_from_csv` (loaders.py lines 60-61):
`pd.to_datetime(..., utc=True)` then `tz_localize(None).tz_localize(tz)`. -/
def load_pvgis_index (raw : List Int) (tz : TZ) : AwareIndex :=
  tz_localize (tz_localize_none (to_datetime_utc raw)) tz

/-! ## Claims C6 and C7 -/

/-- C6 counterexample: a 200 response whose JSON body has no `"hourly"` key
makes `fetch_open_meteo_forecast` raise an uncaught `KeyError` instead of
returning the no-data outcome, so the claim fails for that function. -/
theorem C6_counterexample :
    fetch_open_meteo_forecast (ApiResponse.ok 200 none) =
      Except.error (PyExc.keyError "hourly") ∧
    Except.error (PyExc.keyError "hourly") ≠
      (Except.ok none : Except PyExc (Option DataFrame)) := by
  constructor
  · simp only [fetch_open_meteo_forecast]
    rw [if_neg (by decide : ¬raisesForStatus 200)]
  · simp

/-- C6 (amended): `fetch_live_weather_forecast` never raises and returns
no data on transport errors, 4xx/5xx statuses and missing keys;
`fetch_open_meteo_forecast` returns no data on transport errors and
4xx/5xx statuses, but raises an uncaught `KeyError` when the `"hourly"`
key is absent. -/
theorem C6_fetch_failure_modes (s t : Nat) (b : Option Hourly)
    (hs1 : 400 ≤ s) (hs2 : s < 600) (ht : t < 400) :
    (∀ resp e, fetch_live_weather_forecast resp ≠ Except.error e) ∧
    fetch_live_weather_forecast ApiResponse.transportError = Except.ok none ∧
    fetch_open_meteo_forecast ApiResponse.transportError = Except.ok none ∧
    fetch_live_weather_forecast (ApiResponse.ok s b) = Except.ok none ∧
    fetch_open_meteo_forecast (ApiResponse.ok s b) = Except.ok none ∧
    fetch_live_weather_forecast (ApiResponse.ok t none) = Except.ok none ∧
    fetch_open_meteo_forecast (ApiResponse.ok t none) =
      Except.error (PyExc.keyError "hourly") := by
  have hraise : raisesForStatus s := ⟨hs1, hs2⟩
  have hnot : ¬raisesForStatus t := fun hc => absurd hc.1 (by omega)
  refine ⟨fetch_live_no_uncaught, rfl, rfl, ?_, ?_, ?_, ?_⟩
  · simp only [fetch_live_weather_forecast]; rw [if_pos hraise]
  · simp only [fetch_open_meteo_forecast]; rw [if_pos hraise]
  · simp only [fetch_live_weather_forecast]; rw [if_neg hnot]
  · simp only [fetch_open_meteo_forecast]; rw [if_neg hnot]

/-- Witness for C6 (amended) at status 404 and status 200. -/
theorem C6_fetch_failure_modes_witness :
    fetch_live_weather_forecast (ApiResponse.ok 404 none) = Except.ok none ∧
    fetch_open_meteo_forecast (ApiResponse.ok 200 none) =
      Except.error (PyExc.keyError "hourly") := by
  have h := C6_fetch_failure_modes 404 200 none (by decide) (by decide) (by decide)
  exact ⟨h.2.2.2.1, h.2.2.2.2.2.2⟩

/-- C7 counterexample: `load_pvgis_tmy_from_csv` relabels the clock times
instead of converting the UTC instants — the noon UTC stamp 720 ends up
denoting the instant 900 (noon São Paulo time) — so the claim fails for that
loader. -/
theorem C7_counterexample :
    (load_pvgis_index [720] americaSaoPaulo).instants = [900] ∧
    (to_datetime_utc [720]).instants = [720] ∧
    ([900] : List Int) ≠ [720] := by
  refine ⟨?_, rfl, by decide⟩
  unfold load_pvgis_index tz_localize tz_localize_none to_datetime_utc
  simp [utcTZ, americaSaoPaulo]

/-- C7 (amended): `load_weather_data` preserves the UTC instants (a true
timezone conversion), while `load_pvgis_tmy_from_csv` relabels the
wall-clock times, shifting every instant by the negated target offset. -/
theorem C7_loader_timezones (raw : List Int) (tz : TZ) :
    (load_weather_data_index raw tz).instants = raw ∧
    (load_weather_data_index raw tz).tz = tz ∧
    (load_pvgis_index raw tz).instants = raw.map (fun t => t - tz.offset) ∧
    (load_pvgis_index raw tz).tz = tz := by
  refine ⟨rfl, rfl, ?_, rfl⟩
  unfold load_pvgis_index tz_localize tz_localize_none to_datetime_utc
  simp [utcTZ]

/-! ## DataFrame column lemmas -/

theorem find?_map_fst (l : List (String × List Cell))
    (g : String × List Cell → String × List Cell)
    (hg : ∀ c, (g c).1 = c.1) (name : String) :
    (l.map g).find? (fun c => c.1 == name) =
      (l.find? (fun c => c.1 == name)).map g := by
  induction l with
  | nil => rfl
  | cons a l ih =>
    rw [List.map_cons]
    cases hpa : (a.1 == name) with
    | true => simp [List.find?, hg a, hpa]
    | false => simp [List.find?, hg a, hpa, ih]

theorem fst_mapRequired_cell (f : List Int → List Cell → List Cell)
    (idx : List Int) (c : String × List Cell) :
    ((if required_columns.contains c.1 then (c.1, f idx c.2) else c) :
      String × List Cell).1 = c.1 := by
  split <;> rfl

theorem index_mapRequired (df : DataFrame)
    (f : List Int → List Cell → List Cell) :
    (df.mapRequired f).index = df.index := rfl

theorem columns_mapRequired (df : DataFrame)
    (f : List Int → List Cell → List Cell) :
    (df.mapRequired f).columns = df.columns := by
  unfold DataFrame.mapRequired DataFrame.columns
  simp only [List.map_map]
  apply List.map_congr_left
  intro c _
  exact fst_mapRequired_cell f df.index c

theorem getCol_mapRequired (df : DataFrame)
    (f : List Int → List Cell → List Cell) (name : String)
    (hreq : required_columns.contains name = true)
    (hin : df.columns.contains name = true) :
    (df.mapRequired f).getCol name = f df.index (df.getCol name) := by
  unfold DataFrame.getCol DataFrame.mapRequired
  rw [find?_map_fst _ _ (fst_mapRequired_cell f df.index) name]
  have hin2 : name ∈ df.cols.map Prod.fst := by
    have h' : name ∈ df.columns := by simpa using hin
    exact h'
  rcases List.mem_map.mp hin2 with ⟨cd, hcd, he⟩
  have hex : ∃ c ∈ df.cols, ((fun c => c.1 == name) c = true) :=
    ⟨cd, hcd, by simp [he]⟩
  have hsome : (df.cols.find? (fun c => c.1 == name)).isSome :=
    List.find?_isSome.mpr hex
  match hf : df.cols.find? (fun c => c.1 == name) with
  | none => rw [hf] at hsome; cases hsome
  | some c =>
    have hb := @List.find?_some _ (fun c => c.1 == name) c df.cols hf
    have hc1 : c.1 = name := eq_of_beq hb
    have hcc : required_columns.contains c.1 = true := by rw [hc1]; exact hreq
    rw [hf]
    simp [hcc]
    rw [if_pos (show c.1 ∈ required_columns by simpa using hcc)]

theorem contains_of_missing_nil (df : DataFrame)
    (hmiss : missing_cols df = []) (name : String)
    (h : name ∈ required_columns) :
    df.columns.contains name = true := by
  unfold missing_cols at hmiss
  rw [List.filter_eq_nil_iff] at hmiss
  have := hmiss name h
  simpa using this

/-! ## Null-elimination lemmas for the repair pipeline -/

theorem numOrNull_interpolateCell (times : List Int) (col : List Cell)
    (i : Nat) (c : Cell) (h : numOrNull c = true) :
    numOrNull (interpolateCell times col i c) = true := by
  match c with
  | Cell.str s => simp [numOrNull] at h
  | Cell.num q => rfl
  | Cell.null =>
    simp only [interpolateCell]
    rcases prevValid times col i with _ | ⟨tj, vj⟩ <;>
      rcases nextValid times col i with _ | ⟨tk, vk⟩ <;> simp [numOrNull]

theorem mem_interpolateTimeAux (times : List Int) (col : List Cell)
    (k : Nat) (l : List Cell) (c : Cell)
    (hc : c ∈ interpolateTimeAux times col k l) :
    ∃ i c₀, c₀ ∈ l ∧ c = interpolateCell times col i c₀ := by
  induction l generalizing k with
  | nil => cases hc
  | cons x xs ih =>
    rcases List.mem_cons.mp hc with h | h
    · exact ⟨k, x, by simp, h⟩
    · rcases ih (k + 1) h with ⟨i, c₀, hm, he⟩
      exact ⟨i, c₀, by simp [hm], he⟩

theorem not_isNull_pipeline (times : List Int) (col : List Cell)
    (hnum : ∀ x ∈ col, numOrNull x = true) (c : Cell)
    (hc : c ∈ (fillna0 (interpolateTime times col)).map to_numeric_coerce) :
    c.isNull = false := by
  rcases List.mem_map.mp hc with ⟨c1, hc1, rfl⟩
  rcases List.mem_map.mp hc1 with ⟨c2, hc2, rfl⟩
  rcases mem_interpolateTimeAux times col 0 col c2 hc2 with ⟨i, c₀, hm, rfl⟩
  have h2 : numOrNull (interpolateCell times col i c₀) = true :=
    numOrNull_interpolateCell times col i c₀ (hnum c₀ hm)
  match hic : interpolateCell times col i c₀ with
  | Cell.num q => simp [Cell.isNull, to_numeric_coerce]
  | Cell.null => simp [Cell.isNull, to_numeric_coerce]
  | Cell.str s => rw [hic] at h2; simp [numOrNull] at h2

theorem not_isNull_coerce_of_no_null (col : List Cell)
    (hnum : ∀ x ∈ col, numOrNull x = true)
    (hnn : ∀ x ∈ col, x.isNull = false) (c : Cell)
    (hc : c ∈ col.map to_numeric_coerce) :
    c.isNull = false := by
  rcases List.mem_map.mp hc with ⟨c0, hc0, rfl⟩
  match c0 with
  | Cell.num q => simp [to_numeric_coerce, Cell.isNull]
  | Cell.null => have := hnn Cell.null hc0; simp [Cell.isNull] at this
  | Cell.str s => have := hnum (Cell.str s) hc0; simp [numOrNull] at this

theorem countNulls_eq_zero (l : List Cell)
    (h : ∀ c ∈ l, c.isNull = false) : countNulls l = 0 := by
  unfold countNulls
  rw [List.length_eq_zero, List.filter_eq_nil_iff]
  intro a ha
  simp [h a ha]

/-! ## Warning-count lemmas -/

/-- Lookup in the recorded counts dictionary of a repair warning,
defaulting to 0 for an absent column. -/
def lookupCount : List (String × Nat) → String → Nat
  | [], _ => 0
  | p :: rest, c => if p.1 == c then p.2 else lookupCount rest c

theorem lookupCount_not_mem (l : List (String × Nat)) (c : String)
    (h : ∀ p ∈ l, p.1 ≠ c) : lookupCount l c = 0 := by
  induction l with
  | nil => rfl
  | cons a l ih =>
    have ha : ¬(a.1 == c) = true := by
      simpa using h a (by simp)
    rw [lookupCount, if_neg ha]
    exact ih (fun p hp => h p (by simp [hp]))

theorem lookupCount_filter_pos (l : List (String × Nat)) (c : String)
    (hnd : (l.map Prod.fst).Nodup) :
    lookupCount (l.filter (fun p => 0 < p.2)) c = lookupCount l c := by
  induction l with
  | nil => rfl
  | cons a l ih =>
    rw [List.map_cons, List.nodup_cons] at hnd
    by_cases hc : (a.1 == c) = true
    · have hac : a.1 = c := by simpa using hc
      by_cases hp : 0 < a.2
      · rw [List.filter_cons_of_pos (by simpa using hp),
            lookupCount, if_pos hc, lookupCount, if_pos hc]
      · have ha2 : a.2 = 0 := by omega
        rw [List.filter_cons_of_neg (by simpa using hp),
            lookupCount, if_pos hc, ha2]
        apply lookupCount_not_mem
        intro p hp' he
        refine hnd.1 ?_
        rw [← hac] at he
        exact he ▸ List.mem_map_of_mem Prod.fst (List.mem_of_mem_filter hp')
    · by_cases hp : 0 < a.2
      · rw [List.filter_cons_of_pos (by simpa using hp),
            lookupCount, if_neg hc, lookupCount, if_neg hc]
        exact ih hnd.2
      · rw [List.filter_cons_of_neg (by simpa using hp),
            lookupCount, if_neg hc]
        exact ih hnd.2

theorem lookupCount_map_self (g : String → Nat) (l : List String) (c : String)
    (hc : c ∈ l) :
    lookupCount (l.map (fun x => (x, g x))) c = g c := by
  induction l with
  | nil => cases hc
  | cons a l ih =>
    by_cases h : (a == c) = true
    · have ha : a = c := by simpa using h
      rw [List.map_cons, lookupCount, if_pos (by simpa using h), ha]
    · have hne : a ≠ c := by simpa using h
      rw [List.map_cons, lookupCount, if_neg (by simpa using h)]
      refine ih ?_
      rcases List.mem_cons.mp hc with rfl | hm
      · exact absurd rfl hne
      · exact hm

theorem nan_counts_fst_nodup (df : DataFrame) :
    ((nan_counts df).map Prod.fst).Nodup := by
  have h : (nan_counts df).map Prod.fst = required_columns := by
    unfold nan_counts
    rw [List.map_map]
    rfl
  rw [h]
  decide

/-- The successful-validation branch of `validate_weather_data`, spelled
out: the returned series is exactly the mutated argument. -/
theorem validate_main_branch (df : DataFrame) (hmiss : missing_cols df = []) :
    validate_weather_data df =
      { dfAfter := (if hasNulls df then
            (df.mapRequired interpolateTime).mapRequired (fun _ col => fillna0 col)
          else df).mapRequired (fun _ col => col.map to_numeric_coerce),
        result := some ((if hasNulls df then
            (df.mapRequired interpolateTime).mapRequired (fun _ col => fillna0 col)
          else df).mapRequired (fun _ col => col.map to_numeric_coerce)),
        warnings := if hasNulls df then
            [Warning.nullsRepaired ((nan_counts df).filter (fun p => 0 < p.2))]
          else [] } := by
  unfold validate_weather_data
  rw [if_pos hmiss]

/-- A required-column cell of a DataFrame without nulls is not null. -/
theorem no_null_of_not_hasNulls (df : DataFrame) (hn : ¬hasNulls df = true)
    (c : String) (hc : c ∈ required_columns) (x : Cell)
    (hx : x ∈ df.getCol c) : x.isNull = false := by
  by_contra hxn
  apply hn
  have hxt : x.isNull = true := by
    cases hb : x.isNull
    · exact absurd hb hxn
    · rfl
  unfold hasNulls
  rw [List.any_eq_true]
  refine ⟨c, hc, ?_⟩
  rw [List.any_eq_true]
  exact ⟨x, hx, hxt⟩

/-! ## Claims C2 and C8 -/

/-- Five-column DataFrame whose `ghi` holds an unparsable string and no
nulls at all. -/
def c2df : DataFrame :=
  { index := [0],
    cols := [("ghi", [Cell.str "abc"]),
             ("dni", [Cell.num 0]), ("dhi", [Cell.num 0]),
             ("temp_air", [Cell.num 0]), ("wind_speed", [Cell.num 0])] }

/-- C2 counterexample: all five required columns are present and the input
has no nulls, yet the returned series has a null in `ghi` — the numeric
coercion runs after the repair step and turns the unparsable string into a
null that no repair pass removes. -/
theorem C2_counterexample :
    missing_cols c2df = [] ∧
    (validate_weather_data c2df).result.map
      (fun out => countNulls (out.getCol "ghi")) = some 1 := by
  constructor
  · decide
  · decide

/-- Three-row hourly DataFrame with one null in `ghi`, numeric elsewhere. -/
def c2scen : DataFrame :=
  { index := [0, 60, 120],
    cols := [("ghi", [Cell.num 100, Cell.null, Cell.num 300]),
             ("dni", [Cell.num 0, Cell.num 0, Cell.num 0]),
             ("dhi", [Cell.num 0, Cell.num 0, Cell.num 0]),
             ("temp_air", [Cell.num 0, Cell.num 0, Cell.num 0]),
             ("wind_speed", [Cell.num 0, Cell.num 0, Cell.num 0])] }

/-- C2 (amended): for every weather DataFrame carrying all five required
columns whose required-column cells are numeric or null, the returned
series has zero nulls in the required columns, and when nulls were present
the warnings are exactly one repair warning whose recorded counts agree
with the original per-column null counts. -/
theorem C2_null_repair (df : DataFrame) (hmiss : missing_cols df = [])
    (hnum : ∀ c ∈ required_columns, ∀ x ∈ df.getCol c, numOrNull x = true) :
    ∃ out, (validate_weather_data df).result = some out ∧
      (∀ c ∈ required_columns, countNulls (out.getCol c) = 0) ∧
      (hasNulls df = true →
        (validate_weather_data df).warnings =
          [Warning.nullsRepaired ((nan_counts df).filter (fun p => 0 < p.2))] ∧
        ∀ c ∈ required_columns,
          lookupCount ((nan_counts df).filter (fun p => 0 < p.2)) c =
            countNulls (df.getCol c)) := by
  have hmain := validate_main_branch df hmiss
  have hcounts : ∀ c ∈ required_columns,
      lookupCount ((nan_counts df).filter (fun p => 0 < p.2)) c =
        countNulls (df.getCol c) := by
    intro c hc
    rw [lookupCount_filter_pos _ c (nan_counts_fst_nodup df)]
    exact lookupCount_map_self (fun x => countNulls (df.getCol x))
      required_columns c hc
  by_cases hn : hasNulls df = true
  · refine ⟨((df.mapRequired interpolateTime).mapRequired
        (fun _ col => fillna0 col)).mapRequired
        (fun _ col => col.map to_numeric_coerce), ?_, ?_, ?_⟩
    · rw [hmain]; simp [hn]
    · intro c hc
      have hreq : required_columns.contains c = true := by simpa using hc
      have hin1 : df.columns.contains c = true :=
        contains_of_missing_nil df hmiss c hc
      have hin2 : (df.mapRequired interpolateTime).columns.contains c = true := by
        rw [columns_mapRequired]; exact hin1
      have hin3 : ((df.mapRequired interpolateTime).mapRequired
          (fun _ col => fillna0 col)).columns.contains c = true := by
        rw [columns_mapRequired, columns_mapRequired]; exact hin1
      rw [getCol_mapRequired _ _ _ hreq hin3, getCol_mapRequired _ _ _ hreq hin2,
          getCol_mapRequired _ _ _ hreq hin1]
      exact countNulls_eq_zero _
        (not_isNull_pipeline df.index (df.getCol c) (hnum c hc))
    · intro _
      constructor
      · rw [hmain]; simp [hn]
      · exact hcounts
  · refine ⟨df.mapRequired (fun _ col => col.map to_numeric_coerce), ?_, ?_, ?_⟩
    · rw [hmain]; simp [hn]
    · intro c hc
      have hreq : required_columns.contains c = true := by simpa using hc
      have hin1 : df.columns.contains c = true :=
        contains_of_missing_nil df hmiss c hc
      rw [getCol_mapRequired _ _ _ hreq hin1]
      exact countNulls_eq_zero _
        (not_isNull_coerce_of_no_null (df.getCol c) (hnum c hc)
          (fun x hx => no_null_of_not_hasNulls df hn c hc x hx))
    · intro h
      exact absurd h hn

/-- Witness for C2 (amended) at the three-row scenario DataFrame. -/
theorem C2_null_repair_witness :
    ∃ out, (validate_weather_data c2scen).result = some out ∧
      (∀ c ∈ required_columns, countNulls (out.getCol c) = 0) ∧
      (hasNulls c2scen = true →
        (validate_weather_data c2scen).warnings =
          [Warning.nullsRepaired ((nan_counts c2scen).filter (fun p => 0 < p.2))] ∧
        ∀ c ∈ required_columns,
          lookupCount ((nan_counts c2scen).filter (fun p => 0 < p.2)) c =
            countNulls (c2scen.getCol c)) :=
  C2_null_repair c2scen (by decide) (by decide)

/-- Three-row hourly DataFrame with a null `ghi` cell, used to exhibit the
in-place mutation of `validate_weather_data`. -/
def c8df : DataFrame :=
  { index := [0, 60, 120],
    cols := [("ghi", [Cell.num 100, Cell.null, Cell.num 300]),
             ("dni", [Cell.num 0, Cell.num 0, Cell.num 0]),
             ("dhi", [Cell.num 0, Cell.num 0, Cell.num 0]),
             ("temp_air", [Cell.num 0, Cell.num 0, Cell.num 0]),
             ("wind_speed", [Cell.num 0, Cell.num 0, Cell.num 0])] }

/-- C8 counterexample: after the call the caller's DataFrame differs from
what was passed in — the null `ghi` cell has been replaced in place, so the
input is not consumed read-only. -/
theorem C8_counterexample :
    (validate_weather_data c8df).dfAfter ≠ c8df := by
  norm_num [validate_weather_data, c8df, missing_cols, required_columns,
    DataFrame.columns, hasNulls, DataFrame.getCol, Cell.isNull,
    DataFrame.mapRequired, interpolateTime, interpolateTimeAux,
    interpolateCell, prevValid, nextValid, validPoints, validPointsAux,
    fillna0, to_numeric_coerce, nan_counts, countNulls]
  decide

/-- One-column DataFrame (missing four required columns). -/
def c8missingDF : DataFrame := ⟨[0], [("ghi", [Cell.num 1])]⟩

/-- C8 (amended): `validate_weather_data` leaves its argument unchanged
exactly when validation fails on missing columns; otherwise it assigns the
repaired and coerced columns into the argument in place and returns that
same mutated DataFrame as the series. -/
theorem C8_mutation (df1 df2 : DataFrame)
    (h1 : missing_cols df1 ≠ []) (h2 : missing_cols df2 = []) :
    (validate_weather_data df1).dfAfter = df1 ∧
    (validate_weather_data df2).result =
      some ((validate_weather_data df2).dfAfter) := by
  constructor
  · unfold validate_weather_data
    simp [h1]
  · rw [validate_main_branch df2 h2]

/-- Witness for C8 (amended). -/
theorem C8_mutation_witness :
    (validate_weather_data c8missingDF).dfAfter = c8missingDF ∧
    (validate_weather_data c8df).result =
      some ((validate_weather_data c8df).dfAfter) :=
  C8_mutation c8missingDF c8df (by decide) (by decide)

/-! ## Position/time/value correspondence of the interpolation helpers -/

theorem mem_of_getLast?_eq {α : Type} (l : List α) (a : α)
    (h : l.getLast? = some a) : a ∈ l := by
  rcases List.mem_getLast?_eq_getLast (by simp [h] : a ∈ l.getLast?) with ⟨hne, rfl⟩
  exact List.getLast_mem hne

theorem mem_validPointsAux (times : List Int) (k : Nat) (ts : List Int)
    (cs : List Cell) (p : Nat × Int × ℚ)
    (hp : p ∈ validPointsAux times k ts cs) :
    ∃ j, p.1 = k + j ∧ ts[j]? = some p.2.1 ∧ cs[j]? = some (Cell.num p.2.2) := by
  induction cs generalizing k ts with
  | nil =>
    cases ts <;> simp [validPointsAux] at hp
  | cons c cs ih =>
    match ts with
    | [] => simp [validPointsAux] at hp
    | t :: ts =>
      match c with
      | Cell.num v =>
        rw [validPointsAux] at hp
        rcases List.mem_cons.mp hp with rfl | h
        · exact ⟨0, by omega, by simp, by simp⟩
        · rcases ih (k + 1) ts h with ⟨j, hj, ht, hc⟩
          exact ⟨j + 1, by omega, by simpa using ht, by simpa using hc⟩
      | Cell.null =>
        simp only [validPointsAux] at hp
        rcases ih (k + 1) ts hp with ⟨j, hj, ht, hc⟩
        exact ⟨j + 1, by omega, by simpa using ht, by simpa using hc⟩
      | Cell.str s =>
        simp only [validPointsAux] at hp
        rcases ih (k + 1) ts hp with ⟨j, hj, ht, hc⟩
        exact ⟨j + 1, by omega, by simpa using ht, by simpa using hc⟩

theorem mem_validPoints (times : List Int) (col : List Cell)
    (p : Nat × Int × ℚ) (hp : p ∈ validPoints times col) :
    times[p.1]? = some p.2.1 ∧ col[p.1]? = some (Cell.num p.2.2) := by
  rcases mem_validPointsAux times 0 times col p hp with ⟨j, hj, ht, hc⟩
  have he : p.1 = j := by omega
  rw [he]
  exact ⟨ht, hc⟩

theorem prevValid_spec (times : List Int) (col : List Cell) (i : Nat)
    (tj : Int) (vj : ℚ) (h : prevValid times col i = some (tj, vj)) :
    ∃ j, j < i ∧ times[j]? = some tj ∧ col[j]? = some (Cell.num vj) := by
  unfold prevValid at h
  rcases Option.map_eq_some'.mp h with ⟨p, hgl, hp2⟩
  have hpmem := mem_of_getLast?_eq _ p hgl
  have hf := List.mem_filter.mp hpmem
  have hlt : p.1 < i := by simpa using hf.2
  rcases mem_validPoints times col p hf.1 with ⟨ht, hc⟩
  refine ⟨p.1, hlt, ?_, ?_⟩
  · rw [hp2] at ht; exact ht
  · rw [hp2] at hc; exact hc

theorem nextValid_spec (times : List Int) (col : List Cell) (i : Nat)
    (tk : Int) (vk : ℚ) (h : nextValid times col i = some (tk, vk)) :
    ∃ k, i < k ∧ times[k]? = some tk ∧ col[k]? = some (Cell.num vk) := by
  unfold nextValid at h
  rcases Option.map_eq_some'.mp h with ⟨p, hhd, hp2⟩
  have hpmem : p ∈ (validPoints times col).filter (fun p => i < p.1) :=
    List.mem_of_mem_head? (by simp [hhd])
  have hf := List.mem_filter.mp hpmem
  have hlt : i < p.1 := by simpa using hf.2
  rcases mem_validPoints times col p hf.1 with ⟨ht, hc⟩
  refine ⟨p.1, hlt, ?_, ?_⟩
  · rw [hp2] at ht; exact ht
  · rw [hp2] at hc; exact hc

theorem index_lt_of_getElem? (l : List Int)
    (hp : List.Pairwise (· < ·) l) (i j : Nat) (hij : i < j) (a b : Int)
    (ha : l[i]? = some a) (hb : l[j]? = some b) : a < b := by
  rcases List.getElem?_eq_some.mp ha with ⟨hi, hga⟩
  rcases List.getElem?_eq_some.mp hb with ⟨hj, hgb⟩
  have hlt := List.pairwise_iff_get.mp hp ⟨i, hi⟩ ⟨j, hj⟩ hij
  rw [← hga, ← hgb]
  simpa using hlt

theorem getElem?_interpolateTimeAux (times : List Int) (col : List Cell)
    (k : Nat) (l : List Cell) (i : Nat) :
    (interpolateTimeAux times col k l)[i]? =
      (l[i]?).map (fun c => interpolateCell times col (k + i) c) := by
  induction l generalizing k i with
  | nil => simp [interpolateTimeAux]
  | cons x xs ih =>
    match i with
    | 0 => simp [interpolateTimeAux]
    | i + 1 =>
      rw [interpolateTimeAux]
      simp only [List.getElem?_cons_succ]
      have he : k + (i + 1) = (k + 1) + i := by omega
      rw [he, ih (k + 1) i]

/-- Convexity: a point `a + (b - a) * r` with `r ∈ [0, 1]` lies between
`a` and `b`. -/
theorem convex_between (a b r : ℚ) (h0 : 0 ≤ r) (h1 : r ≤ 1) :
    min a b ≤ a + (b - a) * r ∧ a + (b - a) * r ≤ max a b := by
  rcases le_total a b with h | h
  · rw [min_eq_left h, max_eq_right h]
    constructor
    · nlinarith [mul_nonneg (sub_nonneg.mpr h) h0]
    · nlinarith [mul_nonneg (sub_nonneg.mpr h) (sub_nonneg.mpr h1)]
  · rw [min_eq_right h, max_eq_left h]
    constructor
    · nlinarith [mul_nonneg (sub_nonneg.mpr h) (sub_nonneg.mpr h1)]
    · nlinarith [mul_nonneg (sub_nonneg.mpr h) h0]

/-! ## Claim C3 -/

/-- Two-row DataFrame whose `ghi` ends in a null (no valid neighbour on the
right). -/
def c3df : DataFrame :=
  { index := [0, 60],
    cols := [("ghi", [Cell.num 100, Cell.null]),
             ("dni", [Cell.num 0, Cell.num 0]),
             ("dhi", [Cell.num 0, Cell.num 0]),
             ("temp_air", [Cell.num 0, Cell.num 0]),
             ("wind_speed", [Cell.num 0, Cell.num 0])] }

/-- C3 counterexample: the trailing null in `ghi` — a boundary null with no
neighbour on the right — is filled with the last valid value 100, not with
zero, because `interpolate` forward-fills past the last valid point before
`fillna(0)` ever sees the cell. -/
theorem C3_counterexample :
    (validate_weather_data c3df).result.map (fun out => out.getCol "ghi") =
      some [Cell.num 100, Cell.num 100] ∧
    Cell.num (100 : ℚ) ≠ Cell.num 0 := by
  constructor
  · norm_num [validate_weather_data, c3df, missing_cols, required_columns,
      DataFrame.columns, hasNulls, DataFrame.getCol, Cell.isNull,
      DataFrame.mapRequired, interpolateTime, interpolateTimeAux,
      interpolateCell, prevValid, nextValid, validPoints, validPointsAux,
      fillna0, to_numeric_coerce, nan_counts, countNulls]
  · intro h
    rw [Cell.num.injEq] at h
    norm_num at h

/-- C3 (amended): in a weather DataFrame with all required columns,
numeric-or-null required values and strictly increasing timestamps, a null
cell repaired by `validate_weather_data` receives: the time-weighted linear
interpolation of its nearest valid neighbours when both sides have one — a
value lying between those neighbours; zero when no valid value precedes it;
and the last valid value when valid values precede but none follows. -/
theorem C3_interpolation (df : DataFrame) (hwf : df.Wf)
    (hmiss : missing_cols df = []) (c : String) (hc : c ∈ required_columns)
    (hnum : ∀ x ∈ df.getCol c, numOrNull x = true)
    (i : Nat) (ti : Int) (hti : df.index[i]? = some ti)
    (hnull : (df.getCol c)[i]? = some Cell.null) :
    ∃ out, (validate_weather_data df).result = some out ∧
      (prevValid df.index (df.getCol c) i = none →
        (out.getCol c)[i]? = some (Cell.num 0)) ∧
      (∀ tj vj, prevValid df.index (df.getCol c) i = some (tj, vj) →
        nextValid df.index (df.getCol c) i = none →
        (out.getCol c)[i]? = some (Cell.num vj)) ∧
      (∀ tj vj tk vk, prevValid df.index (df.getCol c) i = some (tj, vj) →
        nextValid df.index (df.getCol c) i = some (tk, vk) →
        (out.getCol c)[i]? = some (Cell.num
          (vj + (vk - vj) * (((ti : ℚ) - (tj : ℚ)) / ((tk : ℚ) - (tj : ℚ))))) ∧
        min vj vk ≤
          vj + (vk - vj) * (((ti : ℚ) - (tj : ℚ)) / ((tk : ℚ) - (tj : ℚ))) ∧
        vj + (vk - vj) * (((ti : ℚ) - (tj : ℚ)) / ((tk : ℚ) - (tj : ℚ))) ≤
          max vj vk) := by
  have hasN : hasNulls df = true := by
    unfold hasNulls
    rw [List.any_eq_true]
    refine ⟨c, hc, ?_⟩
    rw [List.any_eq_true]
    exact ⟨Cell.null, List.getElem?_mem hnull, rfl⟩
  have hmain := validate_main_branch df hmiss
  have hreq : required_columns.contains c = true := by simpa using hc
  have hin1 : df.columns.contains c = true :=
    contains_of_missing_nil df hmiss c hc
  have hin2 : (df.mapRequired interpolateTime).columns.contains c = true := by
    rw [columns_mapRequired]; exact hin1
  have hin3 : ((df.mapRequired interpolateTime).mapRequired
      (fun _ col => fillna0 col)).columns.contains c = true := by
    rw [columns_mapRequired, columns_mapRequired]; exact hin1
  refine ⟨((df.mapRequired interpolateTime).mapRequired
      (fun _ col => fillna0 col)).mapRequired
      (fun _ col => col.map to_numeric_coerce), ?_, ?_⟩
  · rw [hmain]; simp [hasN]
  have houtcol : (((df.mapRequired interpolateTime).mapRequired
      (fun _ col => fillna0 col)).mapRequired
      (fun _ col => col.map to_numeric_coerce)).getCol c =
      (fillna0 (interpolateTime df.index (df.getCol c))).map
        to_numeric_coerce := by
    rw [getCol_mapRequired _ _ _ hreq hin3, getCol_mapRequired _ _ _ hreq hin2,
        getCol_mapRequired _ _ _ hreq hin1]
  have hcell : ∀ cl : Cell,
      ((fillna0 (interpolateTime df.index (df.getCol c))).map
        to_numeric_coerce)[i]? =
      (((df.getCol c)[i]?).map
        (fun x => to_numeric_coerce
          (if (interpolateCell df.index (df.getCol c) i x).isNull
           then Cell.num 0
           else interpolateCell df.index (df.getCol c) i x))) := by
    intro _
    rw [List.getElem?_map]
    unfold fillna0
    rw [List.getElem?_map]
    unfold interpolateTime
    rw [getElem?_interpolateTimeAux df.index (df.getCol c) 0 (df.getCol c) i]
    rw [Option.map_map, Option.map_map]
    simp only [Nat.zero_add]
    rfl
  have hcval : ((((df.mapRequired interpolateTime).mapRequired
      (fun _ col => fillna0 col)).mapRequired
      (fun _ col => col.map to_numeric_coerce)).getCol c)[i]? =
      some (to_numeric_coerce
        (if (interpolateCell df.index (df.getCol c) i Cell.null).isNull
         then Cell.num 0
         else interpolateCell df.index (df.getCol c) i Cell.null)) := by
    rw [houtcol, hcell Cell.null, hnull]
    rfl
  have hgetD : df.index.getD i 0 = ti := by
    rw [List.getD_eq_getElem?_getD, hti]
    rfl
  refine ⟨?_, ?_, ?_⟩
  · intro hprev
    rw [hcval]
    simp only [interpolateCell, hprev]
    rfl
  · intro tj vj hprev hnext
    rw [hcval]
    simp only [interpolateCell, hprev, hnext]
    rfl
  · intro tj vj tk vk hprev hnext
    have hv : interpolateCell df.index (df.getCol c) i Cell.null =
        Cell.num (vj + (vk - vj) *
          (((ti : ℚ) - (tj : ℚ)) / ((tk : ℚ) - (tj : ℚ)))) := by
      simp only [interpolateCell, hprev, hnext, hgetD]
    refine ⟨?_, ?_⟩
    · rw [hcval, hv]
      rfl
    · rcases prevValid_spec df.index (df.getCol c) i tj vj hprev
        with ⟨j, hji, htj, _⟩
      rcases nextValid_spec df.index (df.getCol c) i tk vk hnext
        with ⟨k, hik, htk, _⟩
      have h1 : tj < ti := index_lt_of_getElem? df.index hwf j i hji tj ti htj hti
      have h2 : ti < tk := index_lt_of_getElem? df.index hwf i k hik ti tk hti htk
      have h1q : (tj : ℚ) < (ti : ℚ) := by exact_mod_cast h1
      have h2q : (ti : ℚ) < (tk : ℚ) := by exact_mod_cast h2
      have hden : (0 : ℚ) < (tk : ℚ) - (tj : ℚ) := by linarith
      have hr0 : (0 : ℚ) ≤ ((ti : ℚ) - (tj : ℚ)) / ((tk : ℚ) - (tj : ℚ)) :=
        div_nonneg (by linarith) (le_of_lt hden)
      have hr1 : ((ti : ℚ) - (tj : ℚ)) / ((tk : ℚ) - (tj : ℚ)) ≤ 1 := by
        rw [div_le_one hden]
        linarith
      exact convex_between vj vk _ hr0 hr1
/-- Three-row hourly DataFrame of end-to-end scenario A: `ghi` is null at
hour 1 with values 100 and 300 at hours 0 and 2. -/
def c3scen : DataFrame :=
  { index := [0, 60, 120],
    cols := [("ghi", [Cell.num 100, Cell.null, Cell.num 300]),
             ("dni", [Cell.num 0, Cell.num 0, Cell.num 0]),
             ("dhi", [Cell.num 0, Cell.num 0, Cell.num 0]),
             ("temp_air", [Cell.num 0, Cell.num 0, Cell.num 0]),
             ("wind_speed", [Cell.num 0, Cell.num 0, Cell.num 0])] }

/-- Witness for C3 (amended) at scenario A: the repaired `ghi` at hour 1 is
200, the time-weighted value between 100 and 300. -/
theorem C3_interpolation_witness :
    (validate_weather_data c3scen).result.map
      (fun out => (out.getCol "ghi")[1]?) = some (some (Cell.num 200)) := by
  obtain ⟨out, hres, hnone, hprev, hboth⟩ :=
    C3_interpolation c3scen (by decide) (by decide) "ghi" (by decide)
      (by decide) 1 60 (by decide) (by decide)
  have hp : prevValid c3scen.index (c3scen.getCol "ghi") 1 = some (0, 100) := by
    decide
  have hn : nextValid c3scen.index (c3scen.getCol "ghi") 1 = some (120, 300) := by
    decide
  rcases hboth 0 100 120 300 hp hn with ⟨hcell, _, _⟩
  rw [hres]
  simp only [Option.map_some']
  rw [hcell]
  norm_num

/-! ## PVGIS CSV loader (`loaders.py` lines 37-78) -/

/-- A CSV data table (what follows the 17 skipped header lines): a header
row of column names and data rows of raw string cells. -/
structure CSVTable where
  header : List String
  rows : List (List String)
deriving DecidableEq

/-- The local weather file as the loader sees it: absent (so `open` raises
`FileNotFoundError`), or present with a CSV table. -/
inductive PVGISFile where
  | missing
  | present (table : CSVTable)
deriving DecidableEq

/-- The `usecols` of the PVGIS `read_csv` call. -/
def pvgis_usecols : List String :=
  ["time(UTC)", "T2m", "G(h)", "Gb(n)", "Gd(h)", "WS10m"]

/-- The PVGIS column renaming to the canonical schema. -/
def pvgis_rename : List (String × String) :=
  [("T2m", "temp_air"), ("G(h)", "ghi"), ("Gb(n)", "dni"),
   ("Gd(h)", "dhi"), ("WS10m", "wind_speed")]

/-- Strict parse of one `"%Y%m%d:%H%M"` timestamp into UTC wall-clock
minutes (an order-preserving encoding of the calendar stamp);
`pd.to_datetime` with an explicit format raises on any non-matching
string, modelled as `none`. -/
def parseTimestampUTC (s : String) : Option Int :=
  match s.toList with
  | [y1, y2, y3, y4, mo1, mo2, d1, d2, sep, h1, h2, mi1, mi2] =>
    if sep = ':' ∧ ([y1, y2, y3, y4, mo1, mo2, d1, d2, h1, h2, mi1, mi2].all
        (fun ch => ch.isDigit)) then
      let y := 1000 * (y1.toNat - 48) + 100 * (y2.toNat - 48) +
        10 * (y3.toNat - 48) + (y4.toNat - 48)
      let mo := 10 * (mo1.toNat - 48) + (mo2.toNat - 48)
      let d := 10 * (d1.toNat - 48) + (d2.toNat - 48)
      let h := 10 * (h1.toNat - 48) + (h2.toNat - 48)
      let mi := 10 * (mi1.toNat - 48) + (mi2.toNat - 48)
      if 1 ≤ mo ∧ mo ≤ 12 ∧ 1 ≤ d ∧ d ≤ 31 ∧ h ≤ 23 ∧ mi ≤ 59 then
        some ((((y * 372 + (mo - 1) * 31 + (d - 1)) * 24 + h) * 60 + mi :
          Nat) : Int)
      else none
    else none
  | _ => none

/-- All-or-nothing sequencing of the per-row parses: `pd.to_datetime` on a
whole column raises as soon as any entry fails. -/
def allSome : List (Option Int) → Option (List Int)
  | [] => some []
  | none :: _ => none
  | some a :: rest => (allSome rest).map (fun l => a :: l)

/-- One CSV cell as materialized by `read_csv`: numeric strings become
numbers, empty cells become null, anything else stays a string. -/
def cellOfString (s : String) : Cell :=
  match parseNum s with
  | some q => Cell.num q
  | none => if s = "" then Cell.null else Cell.str s

/-- Position of a named column in the header row. -/
def colIdx (header : List String) (name : String) : Nat :=
  (header.findIdx? (fun h => h == name)).getD 0

/-- A named column out of the first 8760 data rows (`nrows=8760`). -/
def extractCol (t : CSVTable) (name : String) : List String :=
  (t.rows.take 8760).map (fun r => r.getD (colIdx t.header name) "")

/-- `load_pvgis_tmy_from_csv` (loaders.py lines 37-78): the no-data outcome
arises only from a missing file (`FileNotFoundError` is the only caught
exception); `read_csv` raises `ValueError` when a `usecols` column is
absent from the header, and `to_datetime(format="%Y%m%d:%H%M")` raises when
a timestamp does not parse; otherwise the index is built by
`load_pvgis_index` and the data columns are renamed to the canonical
schema. -/
def load_pvgis_tmy_from_csv (file : PVGISFile) (tz : TZ) :
    Except PyExc (Option DataFrame) :=
  match file with
  | PVGISFile.missing => Except.ok none
  | PVGISFile.present t =>
    if pvgis_usecols.all (fun c => t.header.contains c) then
      match allSome ((extractCol t "time(UTC)").map parseTimestampUTC) with
      | none => Except.error PyExc.valueError
      | some stamps =>
        Except.ok (some
          { index := (load_pvgis_index stamps tz).instants,
            cols := pvgis_rename.map (fun p =>
              (p.2, (extractCol t p.1).map cellOfString)) })
    else Except.error PyExc.valueError

/-- A table with the expected columns but an unparsable timestamp row. -/
def badTimeTable : CSVTable :=
  { header := ["time(UTC)", "T2m", "G(h)", "Gb(n)", "Gd(h)", "WS10m"],
    rows := [["not-a-date", "20.0", "0", "0", "0", "1.5"]] }

/-- A table missing every expected column. -/
def emptyCSV : CSVTable := ⟨[], []⟩

/-- C10: `load_pvgis_tmy_from_csv` produces the no-data outcome exactly for
a missing file; an existing file missing expected columns, and an existing
file with an unparsable timestamp, both raise an exception instead of
returning no data. -/
theorem C10_loader_none_iff_missing (file : PVGISFile) (t : CSVTable)
    (tz : TZ)
    (hbad : pvgis_usecols.all (fun c => t.header.contains c) = false) :
    (load_pvgis_tmy_from_csv file tz = Except.ok none ↔
      file = PVGISFile.missing) ∧
    load_pvgis_tmy_from_csv (PVGISFile.present t) tz =
      Except.error PyExc.valueError ∧
    load_pvgis_tmy_from_csv (PVGISFile.present badTimeTable) tz =
      Except.error PyExc.valueError := by
  refine ⟨⟨?_, ?_⟩, ?_, ?_⟩
  · intro h
    match file with
    | PVGISFile.missing => rfl
    | PVGISFile.present t' =>
      exfalso
      simp only [load_pvgis_tmy_from_csv] at h
      by_cases hcols : pvgis_usecols.all (fun c => t'.header.contains c) = true
      · rw [if_pos hcols] at h
        match hall : allSome ((extractCol t' "time(UTC)").map
            parseTimestampUTC) with
        | none => rw [hall] at h; simp at h
        | some stamps => rw [hall] at h; simp at h
      · rw [if_neg hcols] at h
        simp at h
  · rintro rfl
    rfl
  · simp only [load_pvgis_tmy_from_csv]
    rw [if_neg (fun hcontra => by rw [hcontra] at hbad; cases hbad)]
  · simp only [load_pvgis_tmy_from_csv]
    rw [if_pos (by decide)]
    have hts : allSome ((extractCol badTimeTable "time(UTC)").map
        parseTimestampUTC) = none := by decide
    rw [hts]

/-- Witness for C10 at a missing file, an empty table and the bad-timestamp
table. -/
theorem C10_loader_none_iff_missing_witness :
    (load_pvgis_tmy_from_csv PVGISFile.missing utcTZ = Except.ok none ↔
      PVGISFile.missing = PVGISFile.missing) ∧
    load_pvgis_tmy_from_csv (PVGISFile.present emptyCSV) utcTZ =
      Except.error PyExc.valueError ∧
    load_pvgis_tmy_from_csv (PVGISFile.present badTimeTable) utcTZ =
      Except.error PyExc.valueError :=
  C10_loader_none_iff_missing PVGISFile.missing emptyCSV utcTZ (by decide)

end SolarPV
